import Mathlib

set_option autoImplicit false

/-!
Verification of the `superguide_client` TypeScript SDK.

The development shallowly embeds the pure core of the repository:
the response-envelope validator (`src/network/StarterClient.ts`),
the header/URL helpers (`src/utils/starter-helpers.ts`),
the cache-key factory (`src/types.ts`), the `StarterClient` operation
table, and the write-invalidate wiring of `src/hooks/useHistories.ts`.
JavaScript runtime values are modelled by the inductive `JSValue`;
fallible operations return `Except String`, the error string standing
for the thrown `Error`'s message.
-/

/-- Model of a JavaScript runtime value as it can arrive from the
network layer: `null`, `undefined`, a boolean, a number, a string, or a
keyed object (an association list of fields, first binding wins on
lookup). -/
inductive JSValue where
  | null
  | undefined
  | bool (b : Bool)
  | num (n : Int)
  | str (s : String)
  | obj (fields : List (String × JSValue))

/-- First-match lookup of a field in an object's field list. -/
def lookupField : List (String × JSValue) → String → Option JSValue
  | [], _ => none
  | (k, v) :: rest, key => if k = key then some v else lookupField rest key

/-- JavaScript `typeof v`.  Note `typeof null === "object"`. -/
def JSValue.typeof : JSValue → String
  | .null => "object"
  | .undefined => "undefined"
  | .bool _ => "boolean"
  | .num _ => "number"
  | .str _ => "string"
  | .obj _ => "object"

/-- JavaScript loose equality with null (`v == null`): true exactly for
`null` and `undefined`. -/
def JSValue.looseEqNull : JSValue → Bool
  | .null => true
  | .undefined => true
  | _ => false

/-- JavaScript `key in v` on an object; false on non-objects. -/
def JSValue.hasKey (v : JSValue) (key : String) : Bool :=
  match v with
  | .obj fields => (lookupField fields key).isSome
  | _ => false

/-- JavaScript property access `v[key]`, yielding `undefined` when the
key is absent or the value is not an object. -/
def JSValue.getKey (v : JSValue) (key : String) : JSValue :=
  match v with
  | .obj fields => (lookupField fields key).getD .undefined
  | _ => .undefined

/-- JavaScript truthiness: `null`, `undefined`, `false`, `0` and `""`
are falsy, everything else is truthy. -/
def JSValue.truthy : JSValue → Bool
  | .null => false
  | .undefined => false
  | .bool b => b
  | .num n => n != 0
  | .str s => s != ""
  | .obj _ => true

/-- JavaScript optional chaining `v?.[key]`: `undefined` when `v` is
`null` or `undefined`, otherwise plain property access. -/
def JSValue.optChain (v : JSValue) (key : String) : JSValue :=
  if v.looseEqNull then .undefined else v.getKey key

/-- JavaScript `a || b`: `a` when truthy, else `b`. -/
def jsOr (a b : JSValue) : JSValue :=
  if a.truthy then a else b

/-- Conversion of a value interpolated into a template literal. -/
def JSValue.interpolate : JSValue → String
  | .null => "null"
  | .undefined => "undefined"
  | .bool b => if b then "true" else "false"
  | .num n => toString n
  | .str s => s
  | .obj _ => "[object Object]"

/-- Translation of `validateResponse` from
`src/network/StarterClient.ts`: accept `data` when it is loosely
non-null, `typeof data === "object"`, has a `success` key, and that
key's value has `typeof === "boolean"`; otherwise throw the
`Invalid API response for <operation>: response does not match expected
BaseResponse shape` error. -/
def validateResponse (data : JSValue) (operation : String) :
    Except String JSValue :=
  if !data.looseEqNull && data.typeof == "object"
      && data.hasKey "success"
      && (data.getKey "success").typeof == "boolean" then
    .ok data
  else
    .error ("Invalid API response for " ++ operation ++
      ": response does not match expected BaseResponse shape")

/-- Translation of `createAuthHeaders` from
`src/utils/starter-helpers.ts` (headers modelled as the ordered list of
object-literal entries). -/
def createAuthHeaders (token : String) : List (String × String) :=
  [("Content-Type", "application/json"),
   ("Accept", "application/json"),
   ("Authorization", "Bearer " ++ token)]

/-- Translation of `createHeaders` from `src/utils/starter-helpers.ts`. -/
def createHeaders : List (String × String) :=
  [("Content-Type", "application/json"),
   ("Accept", "application/json")]

/-- The effect of `baseUrl.replace(/\/$/, "")` on the character list:
remove the final character when it is a slash, leave everything else
untouched. -/
def dropOneTrailingSlash : List Char → List Char
  | [] => []
  | [c] => if c = '/' then [] else [c]
  | c :: c2 :: rest => c :: dropOneTrailingSlash (c2 :: rest)

/-- Translation of `buildUrl` from `src/utils/starter-helpers.ts`:
strip a single trailing slash from the base (a regex replace of
`/\/$/` by the empty string) and append the path verbatim. -/
def buildUrl (baseUrl path : String) : String :=
  String.mk (dropOneTrailingSlash baseUrl.data) ++ path

/-- Translation of `handleApiError` from
`src/utils/starter-helpers.ts`: take the first truthy of
`response?.data?.error`, `response?.data?.message`, `"Unknown error"`
and format `Failed to <operation>: <message>` (the returned string is
the produced `Error`'s message). -/
def handleApiError (response : JSValue) (operation : String) : String :=
  let errorMessage :=
    jsOr (jsOr ((response.optChain "data").optChain "error")
               ((response.optChain "data").optChain "message"))
         (.str "Unknown error")
  "Failed to " ++ operation ++ ": " ++ errorMessage.interpolate

namespace QUERY_KEYS

/-- Translation of `QUERY_KEYS.histories` from `src/types.ts`. -/
def histories (userId : String) : List String :=
  ["starter", "histories", userId]

/-- Translation of `QUERY_KEYS.historiesTotal` from `src/types.ts`
(the factory takes no argument, so it is a constant here). -/
def historiesTotal : List String :=
  ["starter", "histories", "total"]

/-- Translation of `QUERY_KEYS.user` from `src/types.ts`. -/
def user (userId : String) : List String :=
  ["starter", "user", userId]

end QUERY_KEYS

/-- One invocation of the injected transport: HTTP method, full URL,
header list, and request body (`none` for body-less methods). -/
structure TransportCall where
  method : String
  url : String
  headers : List (String × String)
  body : Option JSValue

/-- The `{ data: unknown }` wrapper a `NetworkClient` method resolves
with. -/
structure NetworkResponse where
  data : JSValue

/-- The injected transport interface (`NetworkClient` from
`@sudobility/types`): `get`/`post`/`put`/`delete`, each resolving with
a `NetworkResponse`. -/
structure NetworkClient where
  get : String → List (String × String) → NetworkResponse
  post : String → JSValue → List (String × String) → NetworkResponse
  put : String → JSValue → List (String × String) → NetworkResponse
  delete : String → List (String × String) → NetworkResponse

/-- Build a `NetworkClient` from a single responder on `TransportCall`,
recording faithfully which method, URL, headers and body each interface
entry forwards. -/
def networkClientOf (r : TransportCall → JSValue) : NetworkClient where
  get := fun url headers => ⟨r ⟨"GET", url, headers, none⟩⟩
  post := fun url body headers => ⟨r ⟨"POST", url, headers, some body⟩⟩
  put := fun url body headers => ⟨r ⟨"PUT", url, headers, some body⟩⟩
  delete := fun url headers => ⟨r ⟨"DELETE", url, headers, none⟩⟩

/-- Translation of the `StarterClient` construction state from
`src/network/StarterClient.ts`: immutable `baseUrl` and injected
`networkClient`. -/
structure StarterClient where
  baseUrl : String
  networkClient : NetworkClient

/-- Translation of `StarterClient.getUser`. -/
def StarterClient.getUser (c : StarterClient) (userId token : String) :
    Except String JSValue :=
  let url := buildUrl c.baseUrl ("/api/v1/users/" ++ userId)
  let response := c.networkClient.get url (createAuthHeaders token)
  validateResponse response.data "getUser"

/-- Translation of `StarterClient.getHistories`. -/
def StarterClient.getHistories (c : StarterClient) (userId token : String) :
    Except String JSValue :=
  let url := buildUrl c.baseUrl ("/api/v1/users/" ++ userId ++ "/histories")
  let response := c.networkClient.get url (createAuthHeaders token)
  validateResponse response.data "getHistories"

/-- Translation of `StarterClient.createHistory`. -/
def StarterClient.createHistory (c : StarterClient) (userId : String)
    (data : JSValue) (token : String) : Except String JSValue :=
  let url := buildUrl c.baseUrl ("/api/v1/users/" ++ userId ++ "/histories")
  let response := c.networkClient.post url data (createAuthHeaders token)
  validateResponse response.data "createHistory"

/-- Translation of `StarterClient.updateHistory`. -/
def StarterClient.updateHistory (c : StarterClient)
    (userId historyId : String) (data : JSValue) (token : String) :
    Except String JSValue :=
  let url := buildUrl c.baseUrl
    ("/api/v1/users/" ++ userId ++ "/histories/" ++ historyId)
  let response := c.networkClient.put url data (createAuthHeaders token)
  validateResponse response.data "updateHistory"

/-- Translation of `StarterClient.deleteHistory`. -/
def StarterClient.deleteHistory (c : StarterClient)
    (userId historyId token : String) : Except String JSValue :=
  let url := buildUrl c.baseUrl
    ("/api/v1/users/" ++ userId ++ "/histories/" ++ historyId)
  let response := c.networkClient.delete url (createAuthHeaders token)
  validateResponse response.data "deleteHistory"

/-- Translation of `StarterClient.getHistoriesTotal` (public endpoint:
`createHeaders`, no token). -/
def StarterClient.getHistoriesTotal (c : StarterClient) :
    Except String JSValue :=
  let url := buildUrl c.baseUrl "/api/v1/histories/total"
  let response := c.networkClient.get url createHeaders
  validateResponse response.data "getHistoriesTotal"

/-- Translation of the `invalidate` callback of `useHistories`
(`src/hooks/useHistories.ts`): when `userId` is truthy, invalidate the
user's history-list key, then always invalidate the global-total key.
Returns the list of invalidated cache keys, in issue order. -/
def invalidateKeys : Option String → List (List String)
  | some u =>
      if u != "" then [QUERY_KEYS.histories u, QUERY_KEYS.historiesTotal]
      else [QUERY_KEYS.historiesTotal]
  | none => [QUERY_KEYS.historiesTotal]

/-- The `onSuccess` wiring shared by the three mutations of
`useHistories`: when the mutation resolves with a response whose
`success` field is truthy, run `invalidate`; when it resolves with a
non-truthy `success`, or rejects (`Except.error`), invalidate nothing. -/
def onWriteResult (userId : Option String) :
    Except String JSValue → List (List String)
  | .ok response =>
      if (response.getKey "success").truthy then invalidateKeys userId
      else []
  | .error _ => []

/-- The create write operation as wired by `useHistories`: run
`client.createHistory`, and pair the outcome with the cache keys the
`onSuccess` callback invalidates. -/
def hookCreateHistory (c : StarterClient) (userId : String)
    (data : JSValue) (token : String) :
    Except String JSValue × List (List String) :=
  let outcome := c.createHistory userId data token
  (outcome, onWriteResult (some userId) outcome)

/-- The update write operation as wired by `useHistories`. -/
def hookUpdateHistory (c : StarterClient) (userId historyId : String)
    (data : JSValue) (token : String) :
    Except String JSValue × List (List String) :=
  let outcome := c.updateHistory userId historyId data token
  (outcome, onWriteResult (some userId) outcome)

/-- The delete write operation as wired by `useHistories`. -/
def hookDeleteHistory (c : StarterClient) (userId historyId token : String) :
    Except String JSValue × List (List String) :=
  let outcome := c.deleteHistory userId historyId token
  (outcome, onWriteResult (some userId) outcome)

/-- The envelope-shape acceptance condition exactly as the claims state
it: the value is a keyed object that binds the key `success` to a
strict boolean. -/
def IsEnvelopeShape (v : JSValue) : Prop :=
  ∃ fields b, v = JSValue.obj fields ∧
    lookupField fields "success" = some (JSValue.bool b)

/-- The validator accepts a value exactly when the envelope-shape
condition holds, and then returns that value unchanged. -/
theorem validateResponse_ok_iff (v : JSValue) (op : String) :
    validateResponse v op = .ok v ↔ IsEnvelopeShape v := by
  cases v with
  | null => simp [validateResponse, JSValue.looseEqNull, IsEnvelopeShape]
  | undefined => simp [validateResponse, JSValue.looseEqNull, IsEnvelopeShape]
  | bool b => simp [validateResponse, JSValue.looseEqNull, JSValue.typeof, IsEnvelopeShape]
  | num n => simp [validateResponse, JSValue.looseEqNull, JSValue.typeof, IsEnvelopeShape]
  | str s => simp [validateResponse, JSValue.looseEqNull, JSValue.typeof, IsEnvelopeShape]
  | obj fields =>
      cases h : lookupField fields "success" with
      | none =>
          simp [validateResponse, JSValue.looseEqNull, JSValue.typeof,
            JSValue.hasKey, JSValue.getKey, h, IsEnvelopeShape]
      | some w =>
          cases w <;>
            simp [validateResponse, JSValue.looseEqNull, JSValue.typeof,
              JSValue.hasKey, JSValue.getKey, h, IsEnvelopeShape]

/-- On every value outside the envelope shape the validator throws the
fixed per-operation message. -/
theorem validateResponse_error_of_not_shape (v : JSValue) (op : String)
    (h : ¬ IsEnvelopeShape v) :
    validateResponse v op = .error ("Invalid API response for " ++ op ++
      ": response does not match expected BaseResponse shape") := by
  cases v with
  | null => rfl
  | undefined => rfl
  | bool b => rfl
  | num n => rfl
  | str s => rfl
  | obj fields =>
      cases hl : lookupField fields "success" with
      | none =>
          simp [validateResponse, JSValue.looseEqNull, JSValue.typeof,
            JSValue.hasKey, JSValue.getKey, hl]
      | some w =>
          cases w with
          | bool b => exact absurd ⟨fields, b, rfl, hl⟩ h
          | null =>
              simp [validateResponse, JSValue.looseEqNull, JSValue.typeof,
                JSValue.hasKey, JSValue.getKey, hl]
          | undefined =>
              simp [validateResponse, JSValue.looseEqNull, JSValue.typeof,
                JSValue.hasKey, JSValue.getKey, hl]
          | num n =>
              simp [validateResponse, JSValue.looseEqNull, JSValue.typeof,
                JSValue.hasKey, JSValue.getKey, hl]
          | str s =>
              simp [validateResponse, JSValue.looseEqNull, JSValue.typeof,
                JSValue.hasKey, JSValue.getKey, hl]
          | obj fields2 =>
              simp [validateResponse, JSValue.looseEqNull, JSValue.typeof,
                JSValue.hasKey, JSValue.getKey, hl]

/-- C1: for every input value `v` and operation name, the response
validator returns `v` typed as a valid envelope if and only if `v` is a
non-null keyed object that binds the key `success` to a strict boolean;
in particular it rejects `null`, `undefined`, any string primitive, the
empty object, and an object whose `success` is the string `"yes"`. -/
theorem c1_validator_accepts_iff_envelope :
    (∀ (v : JSValue) (op : String),
        validateResponse v op = Except.ok v ↔ IsEnvelopeShape v) ∧
    (∀ (op s : String),
        (∃ e, validateResponse JSValue.null op = Except.error e) ∧
        (∃ e, validateResponse JSValue.undefined op = Except.error e) ∧
        (∃ e, validateResponse (JSValue.str s) op = Except.error e) ∧
        (∃ e, validateResponse (JSValue.obj []) op = Except.error e) ∧
        (∃ e, validateResponse
            (JSValue.obj [("success", JSValue.str "yes")]) op
          = Except.error e)) := by
  refine ⟨validateResponse_ok_iff, fun op s => ?_⟩
  refine ⟨⟨_, validateResponse_error_of_not_shape _ _ ?_⟩,
          ⟨_, validateResponse_error_of_not_shape _ _ ?_⟩,
          ⟨_, validateResponse_error_of_not_shape _ _ ?_⟩,
          ⟨_, validateResponse_error_of_not_shape _ _ ?_⟩,
          ⟨_, validateResponse_error_of_not_shape _ _ ?_⟩⟩
  · rintro ⟨f, b, hv, -⟩; exact JSValue.noConfusion hv
  · rintro ⟨f, b, hv, -⟩; exact JSValue.noConfusion hv
  · rintro ⟨f, b, hv, -⟩; exact JSValue.noConfusion hv
  · rintro ⟨f, b, hv, hl⟩
    obtain rfl : ([] : List (String × JSValue)) = f := by injection hv
    simp [lookupField] at hl
  · rintro ⟨f, b, hv, hl⟩
    obtain rfl : [("success", JSValue.str "yes")] = f := by injection hv
    simp [lookupField] at hl

/-- C4 counterexample: at input `null` and operation `getUser` the
validator's message ends in `expected BaseResponse shape`, which is not
the `expected envelope shape` wording the claim asserts. -/
theorem c4_counterexample_message_wording :
    validateResponse JSValue.null "getUser" =
      Except.error "Invalid API response for getUser: response does not match expected BaseResponse shape" ∧
    "Invalid API response for getUser: response does not match expected BaseResponse shape" ≠
      "Invalid API response for getUser: response does not match expected envelope shape" :=
  ⟨rfl, by decide⟩

/-- C4 (amended): for every invalid input value and operation name
`op`, the validator fails with the exact message
`Invalid API response for <op>: response does not match expected
BaseResponse shape`. -/
theorem c4_error_message_exact (v : JSValue) (op : String)
    (h : ¬ IsEnvelopeShape v) :
    validateResponse v op = Except.error ("Invalid API response for " ++
      op ++ ": response does not match expected BaseResponse shape") :=
  validateResponse_error_of_not_shape v op h

/-- C4 witness: the amended message equation evaluated at `undefined`
and operation `deleteHistory`. -/
theorem c4_error_message_exact_witness :
    validateResponse JSValue.undefined "deleteHistory" =
      Except.error "Invalid API response for deleteHistory: response does not match expected BaseResponse shape" :=
  c4_error_message_exact JSValue.undefined "deleteHistory"
    (by rintro ⟨f, b, hv, -⟩; exact JSValue.noConfusion hv)

/-- The recursive single-trailing-slash strip agrees with the direct
description: drop the last character exactly when it is a slash. -/
theorem dropOneTrailingSlash_eq (l : List Char) :
    dropOneTrailingSlash l =
      if l.getLast? = some '/' then l.dropLast else l := by
  induction l with
  | nil => simp [dropOneTrailingSlash]
  | cons c rest ih =>
      cases rest with
      | nil =>
          by_cases hc : c = '/' <;>
            simp [dropOneTrailingSlash, hc]
      | cons c2 rest2 =>
          by_cases h : (c2 :: rest2).getLast? = some '/' <;>
            simp [dropOneTrailingSlash, ih, h, List.getLast?_cons_cons,
              List.dropLast]

/-- C7: `buildUrl b p` equals `b` with at most one trailing slash
removed (the final character dropped exactly when it is `/`, nothing
else touched — no encoding, no internal-slash normalization),
concatenated with `p` unchanged; consequently a base with one trailing
slash and a bare base build the same URL. -/
theorem c7_buildUrl_strips_one_slash :
    (∀ b p : String, buildUrl b p =
        String.mk (if b.data.getLast? = some '/' then b.data.dropLast
          else b.data) ++ p) ∧
    buildUrl "https://x/" "/y" = buildUrl "https://x" "/y" := by
  refine ⟨fun b p => ?_, rfl⟩
  rw [buildUrl, dropOneTrailingSlash_eq]

/-- C8: the authenticated-header builder returns exactly the three
entries `Content-Type`, `Accept` and `Authorization = Bearer <t>`, and
the public-header builder returns exactly the two content negotiation
entries with no `Authorization` entry. -/
theorem c8_header_builders (t : String) :
    createAuthHeaders t =
      [("Content-Type", "application/json"),
       ("Accept", "application/json"),
       ("Authorization", "Bearer " ++ t)] ∧
    (createAuthHeaders t).length = 3 ∧
    List.lookup "Content-Type" (createAuthHeaders t) = some "application/json" ∧
    List.lookup "Accept" (createAuthHeaders t) = some "application/json" ∧
    List.lookup "Authorization" (createAuthHeaders t) = some ("Bearer " ++ t) ∧
    createHeaders =
      [("Content-Type", "application/json"),
       ("Accept", "application/json")] ∧
    createHeaders.length = 2 ∧
    List.lookup "Authorization" createHeaders = none := by
  refine ⟨rfl, rfl, ?_, ?_, ?_, rfl, rfl, ?_⟩ <;>
    simp [createAuthHeaders, createHeaders, List.lookup]

/-- C3 counterexample: the user-scoped history key at the literal user
id `"total"` is structurally equal to the global-total key, so the two
logical resources do not always map to distinct tuples. -/
theorem c3_counterexample_total_collision :
    QUERY_KEYS.histories "total" = QUERY_KEYS.historiesTotal := rfl

/-- C3 (amended): the cache-key factory is deterministic
(`histories u` is always `["starter", "histories", u]`,
`historiesTotal` is the constant `["starter", "histories", "total"]`,
`user u` has `"user"` second and `u` third), distinct user ids give
distinct history keys, the `user` keys never collide with `histories`
or `historiesTotal` keys, and `histories u` differs from
`historiesTotal` for every `u` other than the literal `"total"`. -/
theorem c3_query_key_factory (u u1 u2 : String) :
    QUERY_KEYS.histories u = ["starter", "histories", u] ∧
    QUERY_KEYS.historiesTotal = ["starter", "histories", "total"] ∧
    QUERY_KEYS.user u = ["starter", "user", u] ∧
    (u1 ≠ u2 → QUERY_KEYS.histories u1 ≠ QUERY_KEYS.histories u2) ∧
    (u ≠ "total" → QUERY_KEYS.histories u ≠ QUERY_KEYS.historiesTotal) ∧
    QUERY_KEYS.user u1 ≠ QUERY_KEYS.histories u2 ∧
    QUERY_KEYS.user u ≠ QUERY_KEYS.historiesTotal := by
  refine ⟨rfl, rfl, rfl, ?_, ?_, ?_, ?_⟩ <;>
    simp [QUERY_KEYS.histories, QUERY_KEYS.historiesTotal, QUERY_KEYS.user]

/-- C3 witness: the distinctness clauses evaluated at the user ids
`"user-a"`, `"user-b"`. -/
theorem c3_query_key_factory_witness :
    QUERY_KEYS.histories "user-a" ≠ QUERY_KEYS.histories "user-b" ∧
    QUERY_KEYS.histories "user-a" ≠ QUERY_KEYS.historiesTotal :=
  ⟨(c3_query_key_factory "user-a" "user-a" "user-b").2.2.2.1 (by decide),
   (c3_query_key_factory "user-a" "user-a" "user-b").2.2.2.2.1 (by decide)⟩

/-- C9 counterexample: with `data.error` present but equal to the empty
string, `handleApiError` does not use the present field (which would
give `Failed to fetch: `) but falls back to `Unknown error`. -/
theorem c9_counterexample_empty_error_field :
    handleApiError
        (JSValue.obj [("data", JSValue.obj [("error", JSValue.str "")])])
        "fetch"
      = "Failed to fetch: Unknown error" ∧
    "Failed to fetch: Unknown error" ≠ "Failed to fetch: " :=
  ⟨rfl, by decide⟩

/-- C9 (amended): `handleApiError` produces the message
`Failed to <op>: <message>` where `<message>` is `data.error` when
present and non-empty, else `data.message` when present and non-empty,
else `Unknown error`; it tolerates `null`, `undefined` and
missing-field inputs, and the two concrete examples of the claim hold. -/
theorem c9_handleApiError_formats (op e m : String) :
    (e ≠ "" → handleApiError
        (JSValue.obj [("data", JSValue.obj
          [("error", JSValue.str e), ("message", JSValue.str m)])]) op
      = "Failed to " ++ op ++ ": " ++ e) ∧
    (e ≠ "" → handleApiError
        (JSValue.obj [("data", JSValue.obj [("error", JSValue.str e)])]) op
      = "Failed to " ++ op ++ ": " ++ e) ∧
    (m ≠ "" → handleApiError
        (JSValue.obj [("data", JSValue.obj [("message", JSValue.str m)])]) op
      = "Failed to " ++ op ++ ": " ++ m) ∧
    handleApiError (JSValue.obj [("data", JSValue.obj [])]) op
      = "Failed to " ++ op ++ ": " ++ "Unknown error" ∧
    handleApiError (JSValue.obj []) op
      = "Failed to " ++ op ++ ": " ++ "Unknown error" ∧
    handleApiError JSValue.null op
      = "Failed to " ++ op ++ ": " ++ "Unknown error" ∧
    handleApiError JSValue.undefined op
      = "Failed to " ++ op ++ ": " ++ "Unknown error" ∧
    handleApiError
        (JSValue.obj [("data", JSValue.obj
          [("error", JSValue.str "Not authorized")])]) "fetch histories"
      = "Failed to fetch histories: Not authorized" ∧
    handleApiError JSValue.null "fetch" = "Failed to fetch: Unknown error" := by
  refine ⟨fun he => ?_, fun he => ?_, fun hm => ?_, rfl, rfl, rfl, rfl, rfl, rfl⟩
  · simp [handleApiError, jsOr, JSValue.optChain, JSValue.getKey,
      JSValue.looseEqNull, JSValue.truthy, JSValue.interpolate,
      lookupField, he]
  · simp [handleApiError, jsOr, JSValue.optChain, JSValue.getKey,
      JSValue.looseEqNull, JSValue.truthy, JSValue.interpolate,
      lookupField, he]
  · simp [handleApiError, jsOr, JSValue.optChain, JSValue.getKey,
      JSValue.looseEqNull, JSValue.truthy, JSValue.interpolate,
      lookupField, hm]

/-- C9 witness: the truthy `data.error` clause evaluated at the
claim's own example. -/
theorem c9_handleApiError_formats_witness :
    handleApiError
        (JSValue.obj [("data", JSValue.obj
          [("error", JSValue.str "Not authorized")])]) "fetch histories"
      = "Failed to fetch histories: Not authorized" :=
  (c9_handleApiError_formats "fetch histories" "Not authorized" "").2.1
    (by decide)

/-- C10: `handleApiError` selects by truthiness, not field presence: an
empty-string `data.error` is skipped, the result falls back to
`data.message` when that is non-empty, and to `Unknown error` when
`data.message` is absent or empty as well. -/
theorem c10_truthiness_selection (op m : String) :
    handleApiError
        (JSValue.obj [("data", JSValue.obj
          [("error", JSValue.str ""), ("message", JSValue.str m)])]) op
      = "Failed to " ++ op ++ ": " ++
          (if m = "" then "Unknown error" else m) ∧
    handleApiError
        (JSValue.obj [("data", JSValue.obj [("error", JSValue.str "")])]) op
      = "Failed to " ++ op ++ ": " ++ "Unknown error" := by
  constructor
  · by_cases hm : m = "" <;>
      simp [handleApiError, jsOr, JSValue.optChain, JSValue.getKey,
        JSValue.looseEqNull, JSValue.truthy, JSValue.interpolate,
        lookupField, hm]
  · rfl

/-- C5: each of the six client operations invokes the injected
transport exactly once, with the HTTP method and interpolated path of
the operation table, the URL built by `buildUrl` from the client's
`baseUrl`, the authenticated header set for the five user-scoped
operations and the public header set for the global total, and the
request body passed verbatim for create and update; the raw response
body is passed to the validator tagged with the operation's name. -/
theorem c5_operation_table (base userId historyId token : String)
    (body : JSValue) (r : TransportCall → JSValue) :
    (StarterClient.mk base (networkClientOf r)).getUser userId token =
      validateResponse (r ⟨"GET",
        buildUrl base ("/api/v1/users/" ++ userId),
        createAuthHeaders token, none⟩) "getUser" ∧
    (StarterClient.mk base (networkClientOf r)).getHistories userId token =
      validateResponse (r ⟨"GET",
        buildUrl base ("/api/v1/users/" ++ userId ++ "/histories"),
        createAuthHeaders token, none⟩) "getHistories" ∧
    (StarterClient.mk base (networkClientOf r)).createHistory userId body token =
      validateResponse (r ⟨"POST",
        buildUrl base ("/api/v1/users/" ++ userId ++ "/histories"),
        createAuthHeaders token, some body⟩) "createHistory" ∧
    (StarterClient.mk base (networkClientOf r)).updateHistory userId historyId body token =
      validateResponse (r ⟨"PUT",
        buildUrl base ("/api/v1/users/" ++ userId ++ "/histories/" ++ historyId),
        createAuthHeaders token, some body⟩) "updateHistory" ∧
    (StarterClient.mk base (networkClientOf r)).deleteHistory userId historyId token =
      validateResponse (r ⟨"DELETE",
        buildUrl base ("/api/v1/users/" ++ userId ++ "/histories/" ++ historyId),
        createAuthHeaders token, none⟩) "deleteHistory" ∧
    (StarterClient.mk base (networkClientOf r)).getHistoriesTotal =
      validateResponse (r ⟨"GET",
        buildUrl base "/api/v1/histories/total",
        createHeaders, none⟩) "getHistoriesTotal" :=
  ⟨rfl, rfl, rfl, rfl, rfl, rfl⟩

/-- C6: every value whose `success` field resolves to the strict
boolean `false` (a business-failure envelope) passes the validator and
is returned as data by each of the six client methods — not thrown —
while envelope-shape failures throw. -/
theorem c6_business_failure_returned (fields : List (String × JSValue))
    (h : lookupField fields "success" = some (JSValue.bool false))
    (base userId historyId token : String) (body : JSValue) :
    (∀ op, validateResponse (JSValue.obj fields) op =
        Except.ok (JSValue.obj fields)) ∧
    (StarterClient.mk base (networkClientOf fun _ => JSValue.obj fields)).getUser
        userId token = Except.ok (JSValue.obj fields) ∧
    (StarterClient.mk base (networkClientOf fun _ => JSValue.obj fields)).getHistories
        userId token = Except.ok (JSValue.obj fields) ∧
    (StarterClient.mk base (networkClientOf fun _ => JSValue.obj fields)).createHistory
        userId body token = Except.ok (JSValue.obj fields) ∧
    (StarterClient.mk base (networkClientOf fun _ => JSValue.obj fields)).updateHistory
        userId historyId body token = Except.ok (JSValue.obj fields) ∧
    (StarterClient.mk base (networkClientOf fun _ => JSValue.obj fields)).deleteHistory
        userId historyId token = Except.ok (JSValue.obj fields) ∧
    (StarterClient.mk base (networkClientOf fun _ => JSValue.obj fields)).getHistoriesTotal
        = Except.ok (JSValue.obj fields) ∧
    (∀ (v : JSValue) (op : String), ¬ IsEnvelopeShape v →
        ∃ e, validateResponse v op = Except.error e) := by
  have hok : ∀ op, validateResponse (JSValue.obj fields) op =
      Except.ok (JSValue.obj fields) := fun op =>
    (validateResponse_ok_iff (JSValue.obj fields) op).mpr ⟨fields, false, rfl, h⟩
  exact ⟨hok, hok _, hok _, hok _, hok _, hok _, hok _,
    fun v op hv => ⟨_, validateResponse_error_of_not_shape v op hv⟩⟩

/-- C6 witness: a `success: false` envelope with an error string is
returned as data by `getHistoriesTotal` against a transport that
responds with it. -/
theorem c6_business_failure_returned_witness :
    (StarterClient.mk "https://api.example.com"
        (networkClientOf fun _ => JSValue.obj
          [("success", JSValue.bool false),
           ("error", JSValue.str "Not found")])).getHistoriesTotal
      = Except.ok (JSValue.obj
          [("success", JSValue.bool false),
           ("error", JSValue.str "Not found")]) :=
  (c6_business_failure_returned
    [("success", JSValue.bool false), ("error", JSValue.str "Not found")]
    rfl "https://api.example.com" "u" "h" "t" JSValue.null).2.2.2.2.2.2.1

/-- On a resolved mutation whose envelope carries `success: true`, the
`onSuccess` wiring invalidates the acting user's history-list key
followed by the global-total key. -/
theorem onWriteResult_ok_true (u : String) (hu : u ≠ "")
    (fields : List (String × JSValue))
    (hs : lookupField fields "success" = some (JSValue.bool true)) :
    onWriteResult (some u) (Except.ok (JSValue.obj fields)) =
      [QUERY_KEYS.histories u, QUERY_KEYS.historiesTotal] := by
  simp [onWriteResult, JSValue.getKey, hs, JSValue.truthy,
    invalidateKeys, hu]

/-- On a resolved mutation whose envelope carries `success: false`, the
`onSuccess` wiring invalidates nothing. -/
theorem onWriteResult_ok_false (u : Option String)
    (fields : List (String × JSValue))
    (hs : lookupField fields "success" = some (JSValue.bool false)) :
    onWriteResult u (Except.ok (JSValue.obj fields)) = [] := by
  simp [onWriteResult, JSValue.getKey, hs, JSValue.truthy]

/-- On a rejected mutation, `onSuccess` never runs, so nothing is
invalidated. -/
theorem onWriteResult_error (u : Option String) (e : String) :
    onWriteResult u (Except.error e) = [] := rfl

/-- C2: for each of the three write operations wired by the
history-list hook (create, update, delete), and any client: when the
operation returns an envelope with `success = true` the hook
invalidates exactly the acting user's history-list key and the
global-total key; when the envelope has `success = false`, or the
operation throws, it invalidates neither. -/
theorem c2_write_invalidation (c : StarterClient)
    (userId historyId token : String) (body : JSValue)
    (hu : userId ≠ "") :
    (∀ fields, (hookCreateHistory c userId body token).1 =
        Except.ok (JSValue.obj fields) →
      (lookupField fields "success" = some (JSValue.bool true) →
        (hookCreateHistory c userId body token).2 =
          [QUERY_KEYS.histories userId, QUERY_KEYS.historiesTotal]) ∧
      (lookupField fields "success" = some (JSValue.bool false) →
        (hookCreateHistory c userId body token).2 = [])) ∧
    (∀ e, (hookCreateHistory c userId body token).1 = Except.error e →
        (hookCreateHistory c userId body token).2 = []) ∧
    (∀ fields, (hookUpdateHistory c userId historyId body token).1 =
        Except.ok (JSValue.obj fields) →
      (lookupField fields "success" = some (JSValue.bool true) →
        (hookUpdateHistory c userId historyId body token).2 =
          [QUERY_KEYS.histories userId, QUERY_KEYS.historiesTotal]) ∧
      (lookupField fields "success" = some (JSValue.bool false) →
        (hookUpdateHistory c userId historyId body token).2 = [])) ∧
    (∀ e, (hookUpdateHistory c userId historyId body token).1 = Except.error e →
        (hookUpdateHistory c userId historyId body token).2 = []) ∧
    (∀ fields, (hookDeleteHistory c userId historyId token).1 =
        Except.ok (JSValue.obj fields) →
      (lookupField fields "success" = some (JSValue.bool true) →
        (hookDeleteHistory c userId historyId token).2 =
          [QUERY_KEYS.histories userId, QUERY_KEYS.historiesTotal]) ∧
      (lookupField fields "success" = some (JSValue.bool false) →
        (hookDeleteHistory c userId historyId token).2 = [])) ∧
    (∀ e, (hookDeleteHistory c userId historyId token).1 = Except.error e →
        (hookDeleteHistory c userId historyId token).2 = []) := by
  refine ⟨fun fields h1 => ⟨fun hs => ?_, fun hs => ?_⟩, fun e h1 => ?_,
          fun fields h1 => ⟨fun hs => ?_, fun hs => ?_⟩, fun e h1 => ?_,
          fun fields h1 => ⟨fun hs => ?_, fun hs => ?_⟩, fun e h1 => ?_⟩
  · show onWriteResult (some userId) (c.createHistory userId body token) = _
    rw [show c.createHistory userId body token =
      Except.ok (JSValue.obj fields) from h1]
    exact onWriteResult_ok_true userId hu fields hs
  · show onWriteResult (some userId) (c.createHistory userId body token) = _
    rw [show c.createHistory userId body token =
      Except.ok (JSValue.obj fields) from h1]
    exact onWriteResult_ok_false _ fields hs
  · show onWriteResult (some userId) (c.createHistory userId body token) = _
    rw [show c.createHistory userId body token = Except.error e from h1]
    exact onWriteResult_error _ e
  · show onWriteResult (some userId)
      (c.updateHistory userId historyId body token) = _
    rw [show c.updateHistory userId historyId body token =
      Except.ok (JSValue.obj fields) from h1]
    exact onWriteResult_ok_true userId hu fields hs
  · show onWriteResult (some userId)
      (c.updateHistory userId historyId body token) = _
    rw [show c.updateHistory userId historyId body token =
      Except.ok (JSValue.obj fields) from h1]
    exact onWriteResult_ok_false _ fields hs
  · show onWriteResult (some userId)
      (c.updateHistory userId historyId body token) = _
    rw [show c.updateHistory userId historyId body token =
      Except.error e from h1]
    exact onWriteResult_error _ e
  · show onWriteResult (some userId)
      (c.deleteHistory userId historyId token) = _
    rw [show c.deleteHistory userId historyId token =
      Except.ok (JSValue.obj fields) from h1]
    exact onWriteResult_ok_true userId hu fields hs
  · show onWriteResult (some userId)
      (c.deleteHistory userId historyId token) = _
    rw [show c.deleteHistory userId historyId token =
      Except.ok (JSValue.obj fields) from h1]
    exact onWriteResult_ok_false _ fields hs
  · show onWriteResult (some userId)
      (c.deleteHistory userId historyId token) = _
    rw [show c.deleteHistory userId historyId token =
      Except.error e from h1]
    exact onWriteResult_error _ e

/-- C2 witness: against a transport answering `{success: true}`, the
create operation wired by the hook invalidates exactly the acting
user's history-list key and the global-total key. -/
theorem c2_write_invalidation_witness :
    (hookCreateHistory
        (StarterClient.mk "https://api.example.com"
          (networkClientOf fun _ => JSValue.obj
            [("success", JSValue.bool true)]))
        "user-123" JSValue.null "tok").2 =
      [QUERY_KEYS.histories "user-123", QUERY_KEYS.historiesTotal] :=
  ((c2_write_invalidation
      (StarterClient.mk "https://api.example.com"
        (networkClientOf fun _ => JSValue.obj
          [("success", JSValue.bool true)]))
      "user-123" "hist-1" "tok" JSValue.null (by decide)).1
    [("success", JSValue.bool true)] rfl).1 rfl
